import Mathlib

/-!
Shallow embedding of the CAPTCHA challenge subsystem (generation, time-bounded
in-memory storage, one-shot verification, periodic expiry sweep).

Modelling conventions:
* Time instants (`Date` values) are milliseconds since the epoch, as `Nat`;
  `a < b` on `Date` objects is numeric comparison of their millisecond values.
* The process-wide `Map<string, CaptchaData>` is an association list
  `List (String × CaptchaData)` with the JS `Map` operations `get`, `set`,
  `delete` modelled by `List.lookup`, `mapSet`, `mapDelete`.
* `Math.random()` draws are inputs: the fresh identifier is a `String`
  parameter, the answer-text draws are a `Nat → Nat` stream of values in
  `[0, 36)` (the source computes `Math.floor(Math.random() * chars.length)`),
  and the image-rendering draws are a `Nat → JsNum` stream of values in
  `[0, 1)`, where `JsNum` is an exact-rational model of JS numbers.
* `console.log` calls have no effect on state or result and are dropped.
-/

/-- Exact-rational model of a JS number: `num / den` with `den` positive.
Values are not kept normalised; rendering and comparison work on the raw
pair.  Every JS float is such a rational, so the model is exact for the
arithmetic this subsystem performs. -/
structure JsNum where
  num : Int
  den : Nat
deriving Repr, DecidableEq

def JsNum.add (a b : JsNum) : JsNum := ⟨a.num * b.den + b.num * a.den, a.den * b.den⟩

def JsNum.sub (a b : JsNum) : JsNum := ⟨a.num * b.den - b.num * a.den, a.den * b.den⟩

def JsNum.mul (a b : JsNum) : JsNum := ⟨a.num * b.num, a.den * b.den⟩

instance : Add JsNum := ⟨JsNum.add⟩

instance : Sub JsNum := ⟨JsNum.sub⟩

instance : Mul JsNum := ⟨JsNum.mul⟩

instance (n : Nat) : OfNat JsNum n := ⟨⟨n, 1⟩⟩

/-- The JS literal `0.5`. -/
def jsHalf : JsNum := ⟨1, 2⟩

/-- `Math.floor` on the exact-rational model. -/
def JsNum.jsFloor (a : JsNum) : Int := Int.fdiv a.num a.den

/-- The per-challenge record stored in the in-memory map
(interface `CaptchaData` in the source). -/
structure CaptchaData where
  id : String
  text : String
  image : String
  expiresAt : Nat
deriving Repr, DecidableEq

/-- The in-memory captcha store (`const captchaStore = new Map<string, CaptchaData>()`). -/
abbrev Store := List (String × CaptchaData)

/-- JS `Map.prototype.set`: overwrite in place when the key is present,
append otherwise. -/
def mapSet (k : String) (v : CaptchaData) (s : Store) : Store :=
  if (List.lookup k s).isSome then
    s.map (fun e => if e.1 = k then (k, v) else e)
  else
    s ++ [(k, v)]

/-- JS `Map.prototype.delete`: remove the entry with the given key. -/
def mapDelete (k : String) (s : Store) : Store :=
  List.filter (fun e => !(e.1 == k)) s

/-- JS `String.prototype.toLowerCase`, restricted to ASCII: `Char.toLower`
lowers exactly the letters `A`-`Z`, which covers the captcha alphabet
(uppercase letters and digits) and ASCII user input. -/
def toLowerCase (s : String) : String := String.mk (s.data.map Char.toLower)

/-- `verifyCaptcha(id, userInput)` from the source, with the store and the
current time passed explicitly; returns the boolean result and the store
after the call.  Absent record → `false`; expired record → delete and
`false`; otherwise compare lower-cased answer and input, deleting the
record exactly on success. -/
def verifyCaptcha (store : Store) (now : Nat) (id userInput : String) : Bool × Store :=
  match List.lookup id store with
  | none => (false, store)
  | some captchaData =>
    if captchaData.expiresAt < now then
      (false, mapDelete id store)
    else
      let isValid := toLowerCase captchaData.text == toLowerCase userInput
      if isValid then (true, mapDelete id store) else (false, store)

/-- JS property access on a possibly-`undefined` value: raises `TypeError`
on `undefined`.  Used by the fallible rendering of `verifyCaptcha` to show
the code never throws. -/
def jsGet {α : Type} (o : Option α) : Except String α :=
  match o with
  | some a => Except.ok a
  | none => Except.error "TypeError: cannot read properties of undefined"

/-- Fallible rendering of `verifyCaptcha`: every property access on the
looked-up record goes through `jsGet`, so a read of an absent record would
surface as `Except.error`.  The `if (!captchaData)` guard in the source
makes the error branch unreachable. -/
def verifyCaptchaE (store : Store) (now : Nat) (id userInput : String) :
    Except String (Bool × Store) :=
  let captchaData := List.lookup id store
  if captchaData.isNone then Except.ok (false, store)
  else
    match jsGet captchaData with
    | Except.error e => Except.error e
    | Except.ok d =>
      if d.expiresAt < now then Except.ok (false, mapDelete id store)
      else if toLowerCase d.text == toLowerCase userInput then Except.ok (true, mapDelete id store)
      else Except.ok (false, store)

/-- The sweep body installed by `setInterval`: iterate the entries and delete
every record whose `expiresAt` is before `now`.  The entry-wise delete loop
is modelled by its net effect, a filter keeping the unexpired entries. -/
def sweepExpired (now : Nat) (s : Store) : Store :=
  List.filter (fun e => !(decide (e.2.expiresAt < now))) s

/-- The answer alphabet of `generateRandomText`
(`const chars = 'ABCDEFGHIJKLMNOPQRSTUVWXYZ0123456789'`). -/
def captchaChars : String := "ABCDEFGHIJKLMNOPQRSTUVWXYZ0123456789"

/-- JS `String.prototype.charAt`: a one-character string, or the empty
string when the index is out of range. -/
def charAt (s : String) (i : Nat) : String :=
  match s.data.get? i with
  | some c => String.singleton c
  | none => ""

/-- `generateRandomText(length)` from the source: concatenate `length`
characters `chars.charAt(Math.floor(Math.random() * chars.length))`, the
draw for position `i` being `rand i`. -/
def generateRandomText (rand : Nat → Nat) (length : Nat) : String :=
  (List.range length).foldl (fun result i => result ++ charAt captchaChars (rand i)) ""

/-- The 10-digit zero-padded decimal string of `frac < 10^10`. -/
def decimalDigitsPadded (frac : Nat) : String :=
  (toString (10 ^ 10 + frac)).drop 1

def stripTrailingZeros (s : String) : String :=
  String.mk (List.reverse (List.dropWhile (fun c => c == '0') s.data.reverse))

/-- Rendering of an interpolated JS number inside a template literal:
sign, integer part, and (when nonzero) the fractional part in decimal.
Exact for values whose denominator divides `10^10` — every value arising
from the draws used in this development; for other values it truncates the
decimal expansion at ten digits, where JS would print the shortest
round-tripping form. -/
def jsNumToString (q : JsNum) : String :=
  let sign := if q.num < 0 then "-" else ""
  let a := q.num.natAbs
  let d := q.den
  if a % d = 0 then sign ++ toString (a / d)
  else
    let frac := a % d * 10 ^ 10 / d
    let fs := stripTrailingZeros (decimalDigitsPadded frac)
    sign ++ toString (a / d) ++ "." ++ (if fs = "" then "0" else fs)

/-- Rendering of an interpolated JS integer (the `Math.floor` results). -/
def jsIntToString (i : Int) : String :=
  if i < 0 then "-" ++ toString i.natAbs else toString i.natAbs

/-- One `<text>` node of the SVG, for the character `c` at position `i`
(from the `text.split('').map((char, i) => ...)` body).  The four
`Math.random()` draws it performs are `rand (5*i)` (the `y` jitter),
`rand (5*i+1)` (the rotation) and `rand (5*i+2) .. rand (5*i+4)` (the
colour components), in source evaluation order. -/
def charNode (rand : Nat → JsNum) (i : Nat) (c : Char) : String :=
  let x : Nat := 20 + i * 25
  let y : JsNum := (30 : JsNum) + (rand (5 * i) - jsHalf) * 10
  let rotation : JsNum := (rand (5 * i + 1) - jsHalf) * 20
  let color : String := "rgb(" ++ jsIntToString ((rand (5 * i + 2) * 100).jsFloor) ++ ", " ++
    jsIntToString ((rand (5 * i + 3) * 100).jsFloor) ++ ", " ++
    jsIntToString ((rand (5 * i + 4) * 100).jsFloor) ++ ")"
  "<text x=\"" ++ toString x ++ "\" y=\"" ++ jsNumToString y ++ "\" fill=\"" ++ color ++
    "\" font-family=\"Arial\" font-size=\"24\" font-weight=\"bold\" transform=\"rotate(" ++
    jsNumToString rotation ++ " " ++ toString x ++ " " ++ jsNumToString y ++ ")\">" ++
    String.singleton c ++ "</text>"

/-- One noise `<line>` of the SVG (from the `Array.from(\x7b length: 5 \x7d, ...)`
body).  Its seven `Math.random()` draws are `rand base .. rand (base+6)`:
four endpoint coordinates, then three colour components. -/
def noiseLine (rand : Nat → JsNum) (base : Nat) : String :=
  let x1 := rand base * 150
  let y1 := rand (base + 1) * 50
  let x2 := rand (base + 2) * 150
  let y2 := rand (base + 3) * 50
  let color := "rgba(" ++ jsNumToString (rand (base + 4) * 255) ++ ", " ++
    jsNumToString (rand (base + 5) * 255) ++ ", " ++ jsNumToString (rand (base + 6) * 255) ++
    ", 0.3)"
  "<line x1=\"" ++ jsNumToString x1 ++ "\" y1=\"" ++ jsNumToString y1 ++ "\" x2=\"" ++
    jsNumToString x2 ++ "\" y2=\"" ++ jsNumToString y2 ++ "\" stroke=\"" ++ color ++
    "\" stroke-width=\"1\"/>"

/-- The base64 alphabet. -/
def base64Table : String := "ABCDEFGHIJKLMNOPQRSTUVWXYZabcdefghijklmnopqrstuvwxyz0123456789+/"

/-- `Buffer.from(svg).toString('base64')`: standard base64 over the UTF-8
bytes (the SVG produced here is pure ASCII, so bytes are the character
codes), with `=` padding. -/
def base64EncodeBytes : List Nat → String
  | [] => ""
  | [b1] => charAt base64Table (b1 / 4) ++ charAt base64Table (b1 % 4 * 16) ++ "=="
  | [b1, b2] => charAt base64Table (b1 / 4) ++ charAt base64Table (b1 % 4 * 16 + b2 / 16) ++
      charAt base64Table (b2 % 16 * 4) ++ "="
  | b1 :: b2 :: b3 :: rest =>
      charAt base64Table (b1 / 4) ++ charAt base64Table (b1 % 4 * 16 + b2 / 16) ++
      charAt base64Table (b2 % 16 * 4 + b3 / 64) ++ charAt base64Table (b3 % 64) ++
      base64EncodeBytes rest

/-- `createSimpleCaptchaImage(text)` from the source: an SVG with one
distorted `<text>` node per answer character and five noise lines, returned
as a base64 `data:` URL.  `rand` supplies the `Math.random()` draws in
source evaluation order: all character nodes first (five draws each), then
the noise lines (seven draws each). -/
def createSimpleCaptchaImage (rand : Nat → JsNum) (text : String) : String :=
  let n := text.data.length
  let chars := String.join (text.data.enum.map (fun p => charNode rand p.1 p.2))
  let noiseLines := String.join ((List.range 5).map (fun j => noiseLine rand (5 * n + 7 * j)))
  let svg := "\n    <svg width=\"150\" height=\"50\" xmlns=\"http://www.w3.org/2000/svg\">\n      <rect width=\"100%\" height=\"100%\" fill=\"#f0f0f0\"/>\n      " ++
    noiseLines ++ "\n      " ++ chars ++ "\n    </svg>\n  "
  "data:image/svg+xml;base64," ++ base64EncodeBytes (svg.data.map Char.toNat)

/-- `generateCaptcha()` from the source, with the store, the current time,
the fresh identifier (`Math.random().toString(36).substring(2, 15)`, an
opaque random draw modelled as an input) and the random streams passed
explicitly.  `expiresAt` is five minutes from now (`setMinutes(m + 5)`
normalises overflow, so the instant is exactly `now + 300000` ms).
Returns the `(id, image)` pair and the store after insertion. -/
def generateCaptcha (store : Store) (now : Nat) (freshId : String)
    (textRand : Nat → Nat) (imgRand : Nat → JsNum) : (String × String) × Store :=
  let id := freshId
  let text := generateRandomText textRand 5
  let image := createSimpleCaptchaImage imgRand text
  let expiresAt := now + 5 * 60 * 1000
  ((id, image),
    mapSet id { id := id, text := text, image := image, expiresAt := expiresAt } store)

/-- Index of a character in a list (0-based), used to invert the base64
alphabet when decoding. -/
def idxIn (c : Char) : List Char → Nat → Nat
  | [], _ => 0
  | d :: rest, acc => if d == c then acc else idxIn c rest (acc + 1)

def base64CharVal (c : Char) : Nat := idxIn c base64Table.data 0

/-- Base64 decoding (inverse of `base64EncodeBytes`), used by the attacker
extraction below. -/
def base64DecodeChars : List Char → List Nat
  | c1 :: c2 :: c3 :: c4 :: rest =>
      let s1 := base64CharVal c1
      let s2 := base64CharVal c2
      let s3 := base64CharVal c3
      let s4 := base64CharVal c4
      if c3 == '=' then [s1 * 4 + s2 / 16]
      else if c4 == '=' then [s1 * 4 + s2 / 16, s2 % 16 * 16 + s3 / 4]
      else (s1 * 4 + s2 / 16) :: (s2 % 16 * 16 + s3 / 4) :: (s3 % 4 * 64 + s4) ::
        base64DecodeChars rest
  | _ => []

/-- Collect every character that is immediately followed by the literal
text `</text>` — i.e. read the content of each SVG text node. -/
def extractSvgChars : List Char → List Char
  | [] => []
  | c :: rest =>
      if rest.take 7 = "</text>".data then c :: extractSvgChars rest
      else extractSvgChars rest

/-- An attacker extraction over a returned captcha image payload: strip the
`data:image/svg+xml;base64,` head (26 characters), base64-decode the SVG,
and read the content of its text nodes. -/
def extractAnswerFromImage (payload : String) : String :=
  let svg := String.mk ((base64DecodeChars (payload.drop 26).data).map Char.ofNat)
  String.mk (extractSvgChars svg.data)

/-- A live demo record used to instantiate theorems with hypotheses. -/
def demoData : CaptchaData :=
  { id := "cid", text := "AB3K9", image := "img", expiresAt := 300000 }

/-- A store holding exactly the live demo record. -/
def demoStore : Store := [("cid", demoData)]

/-- An already-expired demo record. -/
def expiredData : CaptchaData :=
  { id := "eid", text := "AB3K9", image := "img", expiresAt := 100 }

/-- A store holding exactly the expired demo record. -/
def expiredStore : Store := [("eid", expiredData)]

/-- A store holding one live and one expired record. -/
def mixedStore : Store := [("cid", demoData), ("eid", expiredData)]

/-! ### Store-operation lemmas -/

theorem lookup_cons_key_eq (k : String) (b : CaptchaData) (t : Store) :
    List.lookup k ((k, b) :: t) = some b := by
  simp

theorem lookup_cons_key_ne (k a : String) (b : CaptchaData) (t : Store) (h : k ≠ a) :
    List.lookup k ((a, b) :: t) = List.lookup k t := by
  rw [List.lookup_cons]
  have hb : (k == a) = false := beq_eq_false_iff_ne.mpr h
  rw [hb]

theorem mapDelete_cons (k a : String) (b : CaptchaData) (t : Store) :
    mapDelete k ((a, b) :: t) =
      if a = k then mapDelete k t else (a, b) :: mapDelete k t := by
  by_cases h : a = k <;> simp [mapDelete, List.filter_cons, h]

theorem lookup_mapDelete_self (k : String) (s : Store) :
    List.lookup k (mapDelete k s) = none := by
  induction s with
  | nil => rfl
  | cons e t ih =>
    obtain ⟨a, b⟩ := e
    rw [mapDelete_cons]
    by_cases h : a = k
    · rwa [if_pos h]
    · rw [if_neg h, lookup_cons_key_ne k a b _ (Ne.symm h)]
      exact ih

theorem lookup_mapDelete_ne (k k2 : String) (s : Store) (h : k2 ≠ k) :
    List.lookup k2 (mapDelete k s) = List.lookup k2 s := by
  induction s with
  | nil => rfl
  | cons e t ih =>
    obtain ⟨a, b⟩ := e
    rw [mapDelete_cons]
    by_cases ha : a = k
    · rw [if_pos ha, lookup_cons_key_ne k2 a b t (fun hh => h (hh.trans ha))]
      exact ih
    · rw [if_neg ha]
      by_cases hb : k2 = a
      · subst hb
        rw [lookup_cons_key_eq, lookup_cons_key_eq]
      · rw [lookup_cons_key_ne k2 a b _ hb, lookup_cons_key_ne k2 a b t hb]
        exact ih

theorem lookup_append_single_self (k : String) (v : CaptchaData) (s : Store)
    (hs : List.lookup k s = none) : List.lookup k (s ++ [(k, v)]) = some v := by
  induction s with
  | nil => rw [List.nil_append, lookup_cons_key_eq]
  | cons e t ih =>
    obtain ⟨a, b⟩ := e
    by_cases h : k = a
    · subst h
      rw [lookup_cons_key_eq] at hs
      exact absurd hs (by simp)
    · rw [lookup_cons_key_ne k a b t h] at hs
      rw [List.cons_append, lookup_cons_key_ne k a b _ h]
      exact ih hs

theorem lookup_append_single_ne (k k2 : String) (v : CaptchaData) (s : Store)
    (h : k2 ≠ k) : List.lookup k2 (s ++ [(k, v)]) = List.lookup k2 s := by
  induction s with
  | nil => rw [List.nil_append, lookup_cons_key_ne k2 k v [] h, List.lookup_nil]
  | cons e t ih =>
    obtain ⟨a, b⟩ := e
    by_cases ha : k2 = a
    · subst ha
      rw [List.cons_append, lookup_cons_key_eq, lookup_cons_key_eq]
    · rw [List.cons_append, lookup_cons_key_ne k2 a b _ ha,
        lookup_cons_key_ne k2 a b t ha]
      exact ih

theorem lookup_map_replace_self (k : String) (v : CaptchaData) (s : Store)
    (hs : (List.lookup k s).isSome) :
    List.lookup k (s.map (fun e => if e.1 = k then (k, v) else e)) = some v := by
  induction s with
  | nil => simp at hs
  | cons e t ih =>
    obtain ⟨a, b⟩ := e
    by_cases h : a = k
    · rw [List.map_cons]
      simp only [if_pos h]
      rw [lookup_cons_key_eq]
    · rw [lookup_cons_key_ne k a b t (Ne.symm h)] at hs
      rw [List.map_cons]
      simp only [if_neg h]
      rw [lookup_cons_key_ne k a b _ (Ne.symm h)]
      exact ih hs

theorem lookup_map_replace_ne (k k2 : String) (v : CaptchaData) (s : Store)
    (h : k2 ≠ k) :
    List.lookup k2 (s.map (fun e => if e.1 = k then (k, v) else e)) =
      List.lookup k2 s := by
  induction s with
  | nil => rfl
  | cons e t ih =>
    obtain ⟨a, b⟩ := e
    rw [List.map_cons]
    by_cases ha : a = k
    · simp only [if_pos ha]
      rw [lookup_cons_key_ne k2 k v _ h, lookup_cons_key_ne k2 a b t (ha ▸ h)]
      exact ih
    · simp only [if_neg ha]
      by_cases hb : k2 = a
      · subst hb
        rw [lookup_cons_key_eq, lookup_cons_key_eq]
      · rw [lookup_cons_key_ne k2 a b _ hb, lookup_cons_key_ne k2 a b t hb]
        exact ih

theorem lookup_mapSet_self (k : String) (v : CaptchaData) (s : Store) :
    List.lookup k (mapSet k v s) = some v := by
  unfold mapSet
  by_cases hs : (List.lookup k s).isSome
  · simpa [hs] using lookup_map_replace_self k v s hs
  · have hn : List.lookup k s = none := Option.not_isSome_iff_eq_none.mp hs
    simpa [hs] using lookup_append_single_self k v s hn

theorem lookup_mapSet_ne (k k2 : String) (v : CaptchaData) (s : Store) (h : k2 ≠ k) :
    List.lookup k2 (mapSet k v s) = List.lookup k2 s := by
  unfold mapSet
  by_cases hs : (List.lookup k s).isSome
  · simpa [hs] using lookup_map_replace_ne k k2 v s h
  · simpa [hs] using lookup_append_single_ne k k2 v s h

/-! ### Reduction lemmas for `verifyCaptcha` -/

theorem verifyCaptcha_absent (s : Store) (now : Nat) (id input : String)
    (h : List.lookup id s = none) : verifyCaptcha s now id input = (false, s) := by
  simp only [verifyCaptcha, h]

theorem verifyCaptcha_expired (s : Store) (now : Nat) (id input : String)
    (d : CaptchaData) (h : List.lookup id s = some d) (he : d.expiresAt < now) :
    verifyCaptcha s now id input = (false, mapDelete id s) := by
  simp only [verifyCaptcha, h]
  rw [if_pos he]

theorem verifyCaptcha_match (s : Store) (now : Nat) (id input : String)
    (d : CaptchaData) (h : List.lookup id s = some d) (he : ¬ d.expiresAt < now)
    (hm : toLowerCase d.text = toLowerCase input) :
    verifyCaptcha s now id input = (true, mapDelete id s) := by
  simp only [verifyCaptcha, h]
  rw [if_neg he]
  simp [hm]

theorem verifyCaptcha_mismatch (s : Store) (now : Nat) (id input : String)
    (d : CaptchaData) (h : List.lookup id s = some d) (he : ¬ d.expiresAt < now)
    (hm : toLowerCase d.text ≠ toLowerCase input) :
    verifyCaptcha s now id input = (false, s) := by
  simp only [verifyCaptcha, h]
  rw [if_neg he]
  simp [beq_eq_false_iff_ne.mpr hm]

theorem verifyCaptcha_true_deletes (s : Store) (now : Nat) (id input : String)
    (h : (verifyCaptcha s now id input).1 = true) :
    (verifyCaptcha s now id input).2 = mapDelete id s := by
  cases hl : List.lookup id s with
  | none =>
    rw [verifyCaptcha_absent s now id input hl] at h
    simp at h
  | some d =>
    by_cases he : d.expiresAt < now
    · rw [verifyCaptcha_expired s now id input d hl he]
    · by_cases hv : toLowerCase d.text = toLowerCase input
      · rw [verifyCaptcha_match s now id input d hl he hv]
      · rw [verifyCaptcha_mismatch s now id input d hl he hv] at h
        simp at h

theorem verifyCaptcha_store_cases (s : Store) (now : Nat) (id input : String) :
    (verifyCaptcha s now id input).2 = s ∨
    (verifyCaptcha s now id input).2 = mapDelete id s := by
  cases hl : List.lookup id s with
  | none =>
    rw [verifyCaptcha_absent s now id input hl]
    exact Or.inl rfl
  | some d =>
    by_cases he : d.expiresAt < now
    · rw [verifyCaptcha_expired s now id input d hl he]
      exact Or.inr rfl
    · by_cases hv : toLowerCase d.text = toLowerCase input
      · rw [verifyCaptcha_match s now id input d hl he hv]
        exact Or.inr rfl
      · rw [verifyCaptcha_mismatch s now id input d hl he hv]
        exact Or.inl rfl

/-! ### Lemmas about `generateRandomText` -/

theorem charAt_length_lt : ∀ i, i < 36 → (charAt captchaChars i).length = 1 := by
  decide

theorem charAt_mem_lt :
    ∀ i, i < 36 → ∀ c, c ∈ (charAt captchaChars i).data → c ∈ captchaChars.data := by
  decide

theorem generateRandomText_succ (rand : Nat → Nat) (n : Nat) :
    generateRandomText rand (n + 1) =
      generateRandomText rand n ++ charAt captchaChars (rand n) := by
  unfold generateRandomText
  rw [List.range_succ, List.foldl_append]
  rfl

theorem generateRandomText_length (rand : Nat → Nat) (n : Nat)
    (h : ∀ i, i < n → rand i < 36) : (generateRandomText rand n).length = n := by
  induction n with
  | zero => rfl
  | succ m ih =>
    rw [generateRandomText_succ, String.length_append,
      ih (fun i hi => h i (Nat.lt_succ_of_lt hi)),
      charAt_length_lt (rand m) (h m (Nat.lt_succ_self m))]

theorem generateRandomText_chars (rand : Nat → Nat) (n : Nat)
    (h : ∀ i, i < n → rand i < 36) :
    ∀ c ∈ (generateRandomText rand n).data, c ∈ captchaChars.data := by
  induction n with
  | zero => intro c hc; simp [generateRandomText] at hc
  | succ m ih =>
    intro c hc
    rw [generateRandomText_succ, String.data_append] at hc
    rcases List.mem_append.mp hc with h1 | h2
    · exact ih (fun i hi => h i (Nat.lt_succ_of_lt hi)) c h1
    · exact charAt_mem_lt (rand m) (h m (Nat.lt_succ_self m)) c h2

/-! ### Claim theorems -/

/-- Claim C1: for a live, unexpired challenge whose stored answer matches the
submitted text case-insensitively, `verifyCaptcha` returns `true` and deletes
the record, and a second call with the same identifier and the same correct
answer returns `false` — the pair never succeeds twice. -/
theorem captcha_roundtrip_once (s : Store) (n1 n2 : Nat) (id input : String)
    (d : CaptchaData) (hlook : List.lookup id s = some d)
    (hexp : ¬ d.expiresAt < n1) (hans : toLowerCase d.text = toLowerCase input) :
    (verifyCaptcha s n1 id input).1 = true ∧
    (verifyCaptcha s n1 id input).2 = mapDelete id s ∧
    (verifyCaptcha (verifyCaptcha s n1 id input).2 n2 id input).1 = false := by
  have h1 : verifyCaptcha s n1 id input = (true, mapDelete id s) :=
    verifyCaptcha_match s n1 id input d hlook hexp hans
  refine ⟨by rw [h1], by rw [h1], ?_⟩
  rw [h1, verifyCaptcha_absent (mapDelete id s) n2 id input (lookup_mapDelete_self id s)]

/-- Witness for C1 at a concrete live store. -/
theorem captcha_roundtrip_once_witness :
    (verifyCaptcha demoStore 0 "cid" "ab3k9").1 = true ∧
    (verifyCaptcha demoStore 0 "cid" "ab3k9").2 = mapDelete "cid" demoStore ∧
    (verifyCaptcha (verifyCaptcha demoStore 0 "cid" "ab3k9").2 0 "cid" "ab3k9").1 = false :=
  captcha_roundtrip_once demoStore 0 0 "cid" "ab3k9" demoData (by decide) (by decide)
    (by decide)

/-- Claim C2: `verifyCaptcha` returns `false` (with the store unchanged) when
the identifier is absent, and on an expired record it deletes the record and
returns `false`, so a subsequent call — even with the correct answer — also
returns `false`. -/
theorem verify_absent_expired_false (s : Store) (now : Nat) (id input : String) :
    (List.lookup id s = none → verifyCaptcha s now id input = (false, s)) ∧
    (∀ d, List.lookup id s = some d → d.expiresAt < now →
      verifyCaptcha s now id input = (false, mapDelete id s) ∧
      ∀ n2 input2, (verifyCaptcha (mapDelete id s) n2 id input2).1 = false) := by
  refine ⟨fun h => verifyCaptcha_absent s now id input h, ?_⟩
  intro d hl he
  refine ⟨verifyCaptcha_expired s now id input d hl he, ?_⟩
  intro n2 input2
  rw [verifyCaptcha_absent (mapDelete id s) n2 id input2 (lookup_mapDelete_self id s)]

/-- Witness for C2: an unknown identifier on the empty store, and an expired
record verified with the correct answer. -/
theorem verify_absent_expired_false_witness :
    verifyCaptcha [] 0 "cid" "anything" = (false, []) ∧
    verifyCaptcha expiredStore 200 "eid" "ab3k9" = (false, mapDelete "eid" expiredStore) ∧
    (verifyCaptcha (mapDelete "eid" expiredStore) 300 "eid" "ab3k9").1 = false :=
  ⟨(verify_absent_expired_false [] 0 "cid" "anything").1 (by decide),
   ((verify_absent_expired_false expiredStore 200 "eid" "ab3k9").2 expiredData
      (by decide) (by decide)).1,
   ((verify_absent_expired_false expiredStore 200 "eid" "ab3k9").2 expiredData
      (by decide) (by decide)).2 300 "ab3k9"⟩

/-- Claim C3: for a live, unexpired challenge, a submission that does not
match the stored answer case-insensitively returns `false` and leaves the
store exactly as it was, so a later call with the correct answer within
the TTL still returns `true`. -/
theorem verify_mismatch_retains (s : Store) (now : Nat) (id input : String)
    (d : CaptchaData) (hlook : List.lookup id s = some d)
    (hexp : ¬ d.expiresAt < now) (hmm : toLowerCase d.text ≠ toLowerCase input) :
    verifyCaptcha s now id input = (false, s) ∧
    ∀ n2 input2, ¬ d.expiresAt < n2 → toLowerCase d.text = toLowerCase input2 →
      (verifyCaptcha s n2 id input2).1 = true := by
  refine ⟨verifyCaptcha_mismatch s now id input d hlook hexp hmm, ?_⟩
  intro n2 input2 he2 hm2
  rw [verifyCaptcha_match s n2 id input2 d hlook he2 hm2]

/-- Witness for C3 at a concrete live store and the wrong answer. -/
theorem verify_mismatch_retains_witness :
    verifyCaptcha demoStore 0 "cid" "wrong" = (false, demoStore) ∧
    (verifyCaptcha demoStore 0 "cid" "aB3K9").1 = true :=
  ⟨(verify_mismatch_retains demoStore 0 "cid" "wrong" demoData (by decide) (by decide)
      (by decide)).1,
   (verify_mismatch_retains demoStore 0 "cid" "wrong" demoData (by decide) (by decide)
      (by decide)).2 0 "aB3K9" (by decide) (by decide)⟩

/-- Claim C4: the result of `verifyCaptcha` is invariant under changing the
letter case of the submitted text (the comparison lower-cases both sides),
and any casing of the correct answer succeeds on a live, unexpired
challenge. -/
theorem verify_case_insensitive (s : Store) (now : Nat) (id i1 i2 : String)
    (hcase : toLowerCase i1 = toLowerCase i2) :
    verifyCaptcha s now id i1 = verifyCaptcha s now id i2 ∧
    ∀ d, List.lookup id s = some d → ¬ d.expiresAt < now →
      toLowerCase d.text = toLowerCase i1 → (verifyCaptcha s now id i1).1 = true := by
  constructor
  · cases hl : List.lookup id s with
    | none =>
      rw [verifyCaptcha_absent s now id i1 hl, verifyCaptcha_absent s now id i2 hl]
    | some d =>
      by_cases he : d.expiresAt < now
      · rw [verifyCaptcha_expired s now id i1 d hl he,
          verifyCaptcha_expired s now id i2 d hl he]
      · by_cases hv : toLowerCase d.text = toLowerCase i1
        · rw [verifyCaptcha_match s now id i1 d hl he hv,
            verifyCaptcha_match s now id i2 d hl he (hv.trans hcase)]
        · rw [verifyCaptcha_mismatch s now id i1 d hl he hv,
            verifyCaptcha_mismatch s now id i2 d hl he (hcase ▸ hv)]
  · intro d hl he hm
    rw [verifyCaptcha_match s now id i1 d hl he hm]

/-- Witness for C4: two casings of the correct answer agree and succeed. -/
theorem verify_case_insensitive_witness :
    verifyCaptcha demoStore 0 "cid" "Ab3K9" = verifyCaptcha demoStore 0 "cid" "aB3k9" ∧
    (verifyCaptcha demoStore 0 "cid" "Ab3K9").1 = true :=
  ⟨(verify_case_insensitive demoStore 0 "cid" "Ab3K9" "aB3k9" (by decide)).1,
   (verify_case_insensitive demoStore 0 "cid" "Ab3K9" "aB3k9" (by decide)).2 demoData
     (by decide) (by decide) (by decide)⟩

/-- Claim C5: a generate call produces an answer of exactly 5 characters
drawn from `A`-`Z` and `0`-`9`, stores the record keyed by the fresh
identifier with `expiresAt = now + 5` minutes, and returns the
`(identifier, image)` pair.  The hypothesis records the range of
`Math.floor(Math.random() * 36)`. -/
theorem generate_produces_valid_record (s : Store) (now : Nat) (gid : String)
    (textRand : Nat → Nat) (imgRand : Nat → JsNum)
    (hr : ∀ i, i < 5 → textRand i < 36) :
    (generateRandomText textRand 5).length = 5 ∧
    (∀ c ∈ (generateRandomText textRand 5).data, c ∈ captchaChars.data) ∧
    List.lookup gid (generateCaptcha s now gid textRand imgRand).2 =
      some { id := gid, text := generateRandomText textRand 5,
             image := createSimpleCaptchaImage imgRand (generateRandomText textRand 5),
             expiresAt := now + 5 * 60 * 1000 } ∧
    (generateCaptcha s now gid textRand imgRand).1 =
      (gid, createSimpleCaptchaImage imgRand (generateRandomText textRand 5)) := by
  refine ⟨generateRandomText_length textRand 5 hr,
    generateRandomText_chars textRand 5 hr, ?_, rfl⟩
  exact lookup_mapSet_self gid _ s

/-- Witness for C5 with the identity draw stream. -/
theorem generate_produces_valid_record_witness :
    (generateRandomText (fun i => i) 5).length = 5 ∧
    (∀ c ∈ (generateRandomText (fun i => i) 5).data, c ∈ captchaChars.data) ∧
    List.lookup "cid0" (generateCaptcha [] 0 "cid0" (fun i => i) (fun _ => ⟨0, 1⟩)).2 =
      some { id := "cid0", text := generateRandomText (fun i => i) 5,
             image := createSimpleCaptchaImage (fun _ => ⟨0, 1⟩)
               (generateRandomText (fun i => i) 5),
             expiresAt := 0 + 5 * 60 * 1000 } ∧
    (generateCaptcha [] 0 "cid0" (fun i => i) (fun _ => ⟨0, 1⟩)).1 =
      ("cid0", createSimpleCaptchaImage (fun _ => ⟨0, 1⟩)
        (generateRandomText (fun i => i) 5)) :=
  generate_produces_valid_record [] 0 "cid0" (fun i => i) (fun _ => ⟨0, 1⟩)
    (by decide)

/-- Claim C7: one sweep keeps exactly the entries that are not yet expired —
it removes every record with `expiresAt < now` and no other — and if every
outstanding challenge has expired, a single sweep empties the store. -/
theorem sweep_removes_exactly_expired (now : Nat) (s : Store) :
    (∀ k d, (k, d) ∈ sweepExpired now s ↔ (k, d) ∈ s ∧ ¬ d.expiresAt < now) ∧
    ((∀ e ∈ s, e.2.expiresAt < now) → sweepExpired now s = []) := by
  constructor
  · intro k d
    unfold sweepExpired
    rw [List.mem_filter]
    simp
  · intro h
    unfold sweepExpired
    rw [List.filter_eq_nil_iff]
    intro e he
    simp [h e he]

/-- Witness for C7 on a store with one live and one expired record. -/
theorem sweep_removes_exactly_expired_witness :
    ((("cid", demoData) ∈ sweepExpired 200 mixedStore) ↔
      (("cid", demoData) ∈ mixedStore ∧ ¬ demoData.expiresAt < 200)) ∧
    sweepExpired 400000 mixedStore = [] :=
  ⟨(sweep_removes_exactly_expired 200 mixedStore).1 "cid" demoData,
   (sweep_removes_exactly_expired 400000 mixedStore).2 (by decide)⟩

/-- Claim C8: two verify calls on the same identifier with the same correct
answer never both return `true`; when the record is live and unexpired at
the first call, exactly one of the two calls returns `true`.  `verifyCaptcha`
is a synchronous, non-yielding function over the single-threaded shared
store, so a concurrent execution of two calls is one of the two sequential
orders, both instances of this statement. -/
theorem verify_single_use_two_calls (s : Store) (n1 n2 : Nat) (id input : String) :
    (¬ ((verifyCaptcha s n1 id input).1 = true ∧
        (verifyCaptcha (verifyCaptcha s n1 id input).2 n2 id input).1 = true)) ∧
    (∀ d, List.lookup id s = some d → ¬ d.expiresAt < n1 →
      toLowerCase d.text = toLowerCase input →
      (verifyCaptcha s n1 id input).1 = true ∧
      (verifyCaptcha (verifyCaptcha s n1 id input).2 n2 id input).1 = false) := by
  have hkey : (verifyCaptcha s n1 id input).1 = true →
      (verifyCaptcha (verifyCaptcha s n1 id input).2 n2 id input).1 = false := by
    intro h
    rw [verifyCaptcha_true_deletes s n1 id input h,
      verifyCaptcha_absent (mapDelete id s) n2 id input (lookup_mapDelete_self id s)]
  constructor
  · rintro ⟨h1, h2⟩
    rw [hkey h1] at h2
    exact Bool.false_ne_true h2
  · intro d hl he hm
    have h1 : (verifyCaptcha s n1 id input).1 = true := by
      rw [verifyCaptcha_match s n1 id input d hl he hm]
    exact ⟨h1, hkey h1⟩

/-- Witness for C8 on a concrete live store. -/
theorem verify_single_use_two_calls_witness :
    (verifyCaptcha demoStore 0 "cid" "ab3k9").1 = true ∧
    (verifyCaptcha (verifyCaptcha demoStore 0 "cid" "ab3k9").2 0 "cid" "ab3k9").1 = false :=
  (verify_single_use_two_calls demoStore 0 0 "cid" "ab3k9").2 demoData (by decide)
    (by decide) (by decide)

/-- Claim C9: the core is total and never raises across its boundary: the
fallible rendering of `verifyCaptcha` (where a property read on an absent
record would surface as a `TypeError`) always returns `Except.ok` of the
boolean-and-store result, and `generateCaptcha` always returns an
identifier-and-image pair. -/
theorem core_never_raises (s : Store) (now : Nat) (id input gid : String)
    (textRand : Nat → Nat) (imgRand : Nat → JsNum) :
    verifyCaptchaE s now id input = Except.ok (verifyCaptcha s now id input) ∧
    ∃ image s2, generateCaptcha s now gid textRand imgRand = ((gid, image), s2) := by
  refine ⟨?_, ⟨_, _, rfl⟩⟩
  simp only [verifyCaptchaE, verifyCaptcha]
  cases List.lookup id s with
  | none => rfl
  | some d =>
    by_cases he : d.expiresAt < now
    · simp [jsGet, he]
    · cases hv : (toLowerCase d.text == toLowerCase input) <;> simp [jsGet, he, hv]

/-- Claim C10: frame conditions — `verifyCaptcha` never touches a store
entry under a different key, and `generateCaptcha` never touches a
pre-existing entry under a different key than the fresh identifier, whose
entry it (over)writes. -/
theorem ops_frame_respecting (s : Store) (now : Nat) (id input k gid : String)
    (textRand : Nat → Nat) (imgRand : Nat → JsNum)
    (hk : k ≠ id) (hg : k ≠ gid) :
    List.lookup k (verifyCaptcha s now id input).2 = List.lookup k s ∧
    List.lookup k (generateCaptcha s now gid textRand imgRand).2 = List.lookup k s ∧
    ∃ dNew, List.lookup gid (generateCaptcha s now gid textRand imgRand).2 = some dNew := by
  refine ⟨?_, ?_, ?_⟩
  · rcases verifyCaptcha_store_cases s now id input with hc | hc
    · rw [hc]
    · rw [hc]
      exact lookup_mapDelete_ne id k s hk
  · exact lookup_mapSet_ne gid k _ s hg
  · exact ⟨_, lookup_mapSet_self gid _ s⟩

/-- Witness for C10 with an unrelated key. -/
theorem ops_frame_respecting_witness :
    List.lookup "zzz" (verifyCaptcha demoStore 0 "cid" "ab3k9").2 =
      List.lookup "zzz" demoStore ∧
    List.lookup "zzz" (generateCaptcha demoStore 0 "cid0" (fun i => i)
      (fun _ => ⟨0, 1⟩)).2 = List.lookup "zzz" demoStore ∧
    ∃ dNew, List.lookup "cid0" (generateCaptcha demoStore 0 "cid0" (fun i => i)
      (fun _ => ⟨0, 1⟩)).2 = some dNew :=
  ops_frame_respecting demoStore 0 "cid" "ab3k9" "zzz" "cid0" (fun i => i)
    (fun _ => ⟨0, 1⟩) (by decide) (by decide)

/-- Claim C6 (amended): `generateCaptcha` returns only the identifier and
the image payload — the answer string is not a component of the returned
pair, and the identifier component does not depend on the answer draws. -/
theorem generate_returns_only_id_image (s : Store) (now : Nat) (gid : String)
    (textRand altRand : Nat → Nat) (imgRand : Nat → JsNum) :
    (generateCaptcha s now gid textRand imgRand).1 =
      (gid, createSimpleCaptchaImage imgRand (generateRandomText textRand 5)) ∧
    (generateCaptcha s now gid textRand imgRand).1.1 =
      (generateCaptcha s now gid altRand imgRand).1.1 :=
  ⟨rfl, rfl⟩

set_option maxRecDepth 10000

/-- Claim C6, counterexample to the original claim: the answer IS
recoverable from the returned image payload.  Stripping the
`data:image/svg+xml;base64,` head, base64-decoding, and reading the SVG
text nodes recovers exactly the stored answer of a concrete generate
call. -/
theorem answer_recoverable_from_image :
    extractAnswerFromImage
        (generateCaptcha [] 0 "cid0" (fun i => i) (fun _ => ⟨0, 1⟩)).1.2 = "ABCDE" ∧
    (List.lookup "cid0" (generateCaptcha [] 0 "cid0" (fun i => i)
        (fun _ => ⟨0, 1⟩)).2).map CaptchaData.text = some "ABCDE" := by
  exact ⟨by decide, by decide⟩
